import Mathlib

/-!
Verification of the Basic-Agents repository: a shallow embedding of the three
example scripts (basic completion, tool-calling loop, routing workflow) and
proofs of the spec's testable properties about them.

External effects (the hosted LLM endpoint, the weather HTTP endpoint, the
process environment) are modelled as explicit oracle parameters; everything
the scripts themselves compute is translated directly from the Python source.
-/

namespace BasicAgents

/-! ## Routing workflow (src/patterns/2-workflow-patterns/2-routing.py) -/

/-- The `Literal["new_event", "modify_event", "other"]` type of
`CalendarRequestType.request_type`. -/
inductive RequestType where
  | new_event
  | modify_event
  | other
deriving DecidableEq, Repr

/-- Router LLM call result: determines the type of calendar request.
Mirrors the pydantic model `CalendarRequestType`. The confidence score is a
float in the source; it is carried, never computed with, so ℚ models it. -/
structure CalendarRequestType where
  request_type : RequestType
  confidence_score : ℚ
  description : String
deriving DecidableEq, Repr

/-- Details for creating a new event (pydantic model `NewEventDetails`).
`duration_minutes` is declared `str` in the source. -/
structure NewEventDetails where
  name : String
  date : String
  duration_minutes : String
  participants : List String
deriving DecidableEq, Repr

/-- One field/new-value change pair (pydantic model `Change`). -/
structure Change where
  field : String
  new_value : String
deriving DecidableEq, Repr

/-- Details for modifying an existing event (pydantic model `ModifyEventDetails`). -/
structure ModifyEventDetails where
  event_identifier : String
  changes : List Change
  participants_to_add : List String
  participants_to_remove : List String
deriving DecidableEq, Repr

/-- Final response format (pydantic model `CalendarResponse`). -/
structure CalendarResponse where
  success : Bool
  message : String
  calendar_link : Option String
deriving DecidableEq, Repr

/-- `route_calendar_request`: one structured-output LLM call classifying the
user input. The LLM endpoint is the oracle `llm`; the structured-output
contract guarantees the parsed value has type `CalendarRequestType`, which the
function returns unchanged (logging is effect-only). -/
def route_calendar_request (llm : String → CalendarRequestType)
    (user_input : String) : CalendarRequestType :=
  llm user_input

/-- `handle_new_event`: one structured-output extraction call on the
description (oracle `extract`), then pure string formatting of the response.
The message and link are built exactly as the source's f-strings. -/
def handle_new_event (extract : String → NewEventDetails)
    (description : String) : CalendarResponse :=
  let details := extract description
  { success := true
    message := "Created new event \x27" ++ details.name ++ "\x27 for " ++
      details.date ++ " with " ++ String.intercalate ", " details.participants
    calendar_link := some ("calendar://new?event=" ++ details.name) }

/-- `handle_modify_event`: one structured-output extraction call on the
description (oracle `extract`), then pure string formatting of the response. -/
def handle_modify_event (extract : String → ModifyEventDetails)
    (description : String) : CalendarResponse :=
  let details := extract description
  { success := true
    message := "Modified event \x27" ++ details.event_identifier ++
      "\x27 with the requested change."
    calendar_link := some ("calendar://modify?event=" ++ details.event_identifier) }

/-- Modelled from the spec: the routing file under src/ defines the classifier
and the two handlers but contains no top-level dispatch; the spec's state
machine (Start, Classified, then NewEventHandled, ModifyEventHandled or
Unhandled) says each handler receives the cleaned description, and a
classification of "other" is never dispatched further, a terminal state with
no defined output. `none` models that undefined output. -/
def process_calendar_request (llm : String → CalendarRequestType)
    (extractNew : String → NewEventDetails)
    (extractModify : String → ModifyEventDetails)
    (user_input : String) : Option CalendarResponse :=
  let result := route_calendar_request llm user_input
  match result.request_type with
  | .new_event => some (handle_new_event extractNew result.description)
  | .modify_event => some (handle_modify_event extractModify result.description)
  | .other => none

/-! ## Tool-calling loop (src/patterns/1-Introduction/3-tools.py) -/

/-- JSON values, as handled by Python's `json` module. Numbers are modelled
as rationals; their textual rendering is a modelling choice and no claim
depends on it. -/
inductive Json where
  | null
  | bool (b : Bool)
  | num (q : ℚ)
  | str (s : String)
  | arr (xs : List Json)
  | obj (kvs : List (String × Json))

/-- Escape one character as Python's `json.dumps` does for quotes and
backslashes (the subset exercised here). -/
def jsonEscapeChar (c : Char) : String :=
  if c = '\"' then "\\\"" else if c = '\\' then "\\\\" else String.singleton c

/-- Escape a string for JSON serialization. -/
def jsonEscape (s : String) : String :=
  String.join (s.toList.map jsonEscapeChar)

mutual
/-- `json.dumps` with Python's default separators. -/
def Json.dumps : Json → String
  | .null => "null"
  | .bool b => if b then "true" else "false"
  | .num q => toString q
  | .str s => "\"" ++ jsonEscape s ++ "\""
  | .arr xs => "[" ++ String.intercalate ", " (Json.dumpsList xs) ++ "]"
  | .obj kvs => "\x7b" ++ String.intercalate ", " (Json.dumpsObj kvs) ++ "\x7d"

/-- Serialize each array element. -/
def Json.dumpsList : List Json → List String
  | [] => []
  | x :: rest => Json.dumps x :: Json.dumpsList rest

/-- Serialize each object entry as `"key": value`. -/
def Json.dumpsObj : List (String × Json) → List String
  | [] => []
  | (k, v) :: rest =>
      ("\"" ++ jsonEscape k ++ "\": " ++ Json.dumps v) :: Json.dumpsObj rest
end

/-- Dictionary lookup `data[k]` on a JSON object: `some` the bound value,
`none` when the key is absent or the value is not an object (Python raises
there; no claim exercises that branch). -/
def Json.getKey : Json → String → Option Json
  | .obj kvs, k => lookupKV kvs k
  | _, _ => none
where
  /-- First binding of the key in the entry list. -/
  lookupKV : List (String × Json) → String → Option Json
  | [], _ => none
  | (k, v) :: rest, key => if k = key then some v else lookupKV rest key

/-- `get_weather(latitude, longitude)`: an HTTP GET of the open-meteo
forecast endpoint at the given coordinates, then `data["current"]`. The
endpoint is the oracle `api`, standing for `response.json()`; `none` models
the KeyError when the response lacks a "current" field. -/
def get_weather (api : ℚ → ℚ → Json) (latitude longitude : ℚ) : Option Json :=
  Json.getKey (api latitude longitude) "current"

/-- One parsed tool call from the model response: id, function name, and the
`json.loads` of the arguments string (a JSON object of numbers, carried
already parsed as key/value pairs). -/
structure ToolCall where
  id : String
  name : String
  args : List (String × ℚ)
deriving DecidableEq, Repr

/-- `call_function(name, args)`: literal name comparison dispatching to
`get_weather(**args)`; any other name falls off the `if` and returns `None`.
Keyword unpacking binds exactly the keys latitude and longitude, in either
order; any other argument shape raises a TypeError in Python (`none` here,
a branch no claim exercises). -/
def call_function (api : ℚ → ℚ → Json) (name : String)
    (args : List (String × ℚ)) : Option Json :=
  if name = "get_weather" then
    match args with
    | [("latitude", la), ("longitude", lo)] => get_weather api la lo
    | [("longitude", lo), ("latitude", la)] => get_weather api la lo
    | _ => none
  else none

/-- Conversation messages: the initial system/user dicts, the assistant
message object from the completion (carrying its tool calls), and the
tool-result dicts appended by the loop. -/
inductive Message where
  | system (content : String)
  | user (content : String)
  | assistant (tool_calls : List ToolCall)
  | tool (tool_call_id : String) (content : String)
deriving DecidableEq, Repr

/-- `json.dumps(result)` where `result` may be Python `None` (serialized as
the JSON null literal). -/
def dumpsOpt (o : Option Json) : String :=
  Json.dumps (o.getD Json.null)

/-- One iteration of the `for tool_call in ... .tool_calls` loop: append the
completion's assistant message, dispatch via `call_function`, and append the
tool-role result dict carrying the call's id. -/
def toolCallStep (api : ℚ → ℚ → Json) (assistantMsg : Message)
    (msgs : List Message) (tc : ToolCall) : List Message :=
  msgs ++ [assistantMsg,
    Message.tool tc.id (dumpsOpt (call_function api tc.name tc.args))]

/-- The whole tool-execution loop over the completion's tool calls, starting
from the conversation `msgs`. The appended assistant message is the
completion message itself, which carries the full tool-call list. -/
def runToolLoop (api : ℚ → ℚ → Json) (msgs : List Message)
    (tool_calls : List ToolCall) : List Message :=
  tool_calls.foldl (toolCallStep api (Message.assistant tool_calls)) msgs

/-! ## Basic completion (src/patterns/1-Introduction/1-basic.py) -/

/-- What Python's `print` writes for an `os.getenv` result: the string
itself, or the text None when the variable is unset. -/
def pyPrintArg : Option String → String
  | none => "None"
  | some s => s

/-- The stdout lines of 1-basic.py: it prints `openai_api_key` (the value of
the OPENAI_API_KEY environment variable) and then the model response content
(oracle `response`). -/
def basic_script_stdout (openai_api_key : Option String)
    (response : String) : List String :=
  [pyPrintArg openai_api_key, response]

/-! ## Helper lemmas -/

/-- Unrolling the tool loop: the final conversation is the initial one
followed by, per tool call, the assistant message and its tool-result dict. -/
theorem foldl_toolCallStep (api : ℚ → ℚ → Json) (A : Message) :
    ∀ (l : List ToolCall) (msgs : List Message),
      l.foldl (toolCallStep api A) msgs =
        msgs ++ l.flatMap (fun tc =>
          [A, Message.tool tc.id (dumpsOpt (call_function api tc.name tc.args))]) := by
  intro l
  induction l with
  | nil => intro msgs; simp
  | cons tc rest ih =>
      intro msgs
      simp [List.foldl_cons, toolCallStep, ih]

/-- Counting a marker message in an interleaving of marker/other pairs. -/
theorem count_flatMap_pair (A : Message) (f : ToolCall → Message)
    (hf : ∀ tc, f tc ≠ A) :
    ∀ l : List ToolCall, List.count A (l.flatMap fun tc => [A, f tc]) = l.length := by
  intro l
  induction l with
  | nil => simp
  | cons tc rest ih =>
      have hne : ¬ (f tc == A) = true := by
        simpa using hf tc
      simp [List.count_cons, ih, hne]

/-! ## Claim theorems -/

/-- C1: for every fixed classification result, the routing workflow selects
the handler matching the category, handle_new_event for new_event and
handle_modify_event for modify_event (each applied to the cleaned
description), and a classification of other is never dispatched to any
handler. -/
theorem routing_dispatch_selects_handler
    (llm : String → CalendarRequestType)
    (eN : String → NewEventDetails) (eM : String → ModifyEventDetails)
    (input : String) :
    ((llm input).request_type = RequestType.new_event →
        process_calendar_request llm eN eM input =
          some (handle_new_event eN (llm input).description)) ∧
    ((llm input).request_type = RequestType.modify_event →
        process_calendar_request llm eN eM input =
          some (handle_modify_event eM (llm input).description)) ∧
    ((llm input).request_type = RequestType.other →
        process_calendar_request llm eN eM input = none) := by
  refine ⟨fun h => ?_, fun h => ?_, fun h => ?_⟩ <;>
    simp [process_calendar_request, route_calendar_request, h]

/-- Witness for C1: all three branches at concrete classification results. -/
theorem routing_dispatch_selects_handler_witness :
    (process_calendar_request (fun _ => ⟨RequestType.new_event, 1, "d1"⟩)
        (fun _ => ⟨"E", "D", "30", []⟩) (fun _ => ⟨"I", [], [], []⟩) "x" =
      some (handle_new_event (fun _ => ⟨"E", "D", "30", []⟩) "d1")) ∧
    (process_calendar_request (fun _ => ⟨RequestType.modify_event, 1, "d2"⟩)
        (fun _ => ⟨"E", "D", "30", []⟩) (fun _ => ⟨"I", [], [], []⟩) "x" =
      some (handle_modify_event (fun _ => ⟨"I", [], [], []⟩) "d2")) ∧
    (process_calendar_request (fun _ => ⟨RequestType.other, 1, "d3"⟩)
        (fun _ => ⟨"E", "D", "30", []⟩) (fun _ => ⟨"I", [], [], []⟩) "x" = none) :=
  ⟨(routing_dispatch_selects_handler _ _ _ _).1 rfl,
   (routing_dispatch_selects_handler _ _ _ _).2.1 rfl,
   (routing_dispatch_selects_handler _ _ _ _).2.2 rfl⟩

/-- C2: whenever the new-event extraction yields name Team Sync, date
2025-01-10T10:00 and participants Alice, Bob, the response message is
exactly the expected confirmation string. -/
theorem new_event_message_team_sync
    (extract : String → NewEventDetails) (d : String)
    (h1 : (extract d).name = "Team Sync")
    (h2 : (extract d).date = "2025-01-10T10:00")
    (h3 : (extract d).participants = ["Alice", "Bob"]) :
    (handle_new_event extract d).message =
      "Created new event \x27Team Sync\x27 for 2025-01-10T10:00 with Alice, Bob" := by
  simp only [handle_new_event]
  rw [h1, h2, h3]
  rfl

/-- Witness for C2: a concrete extraction result with those fields. -/
theorem new_event_message_team_sync_witness :
    (handle_new_event
        (fun _ => ⟨"Team Sync", "2025-01-10T10:00", "60", ["Alice", "Bob"]⟩)
        "schedule a team sync").message =
      "Created new event \x27Team Sync\x27 for 2025-01-10T10:00 with Alice, Bob" :=
  new_event_message_team_sync _ _ rfl rfl rfl

/-- C3: whenever the modify-event extraction yields event_identifier
Team Sync, the response message is exactly the expected confirmation
string. -/
theorem modify_event_message_team_sync
    (extract : String → ModifyEventDetails) (d : String)
    (h1 : (extract d).event_identifier = "Team Sync") :
    (handle_modify_event extract d).message =
      "Modified event \x27Team Sync\x27 with the requested change." := by
  simp only [handle_modify_event]
  rw [h1]
  rfl

/-- Witness for C3: a concrete extraction result with that identifier. -/
theorem modify_event_message_team_sync_witness :
    (handle_modify_event
        (fun _ => ⟨"Team Sync", [⟨"date", "2025-01-11T10:00"⟩], [], []⟩)
        "move the team sync").message =
      "Modified event \x27Team Sync\x27 with the requested change." :=
  modify_event_message_team_sync _ _ rfl

/-- C4: for every tool-call name other than get_weather, call_function
returns no result, and the tool-role message appended for that call has
content equal to the JSON null literal. -/
theorem unknown_tool_name_yields_null
    (api : ℚ → ℚ → Json) (name : String) (args : List (String × ℚ))
    (h : name ≠ "get_weather") :
    call_function api name args = none ∧
    ∀ (msgs : List Message) (i : String),
      runToolLoop api msgs [⟨i, name, args⟩] =
        msgs ++ [Message.assistant [⟨i, name, args⟩], Message.tool i "null"] := by
  constructor
  · simp [call_function, h]
  · intro msgs i
    simp [runToolLoop, toolCallStep, call_function, h, dumpsOpt, Json.dumps]

/-- Witness for C4: the unknown tool name get_time. -/
theorem unknown_tool_name_yields_null_witness :
    call_function (fun _ _ => Json.null) "get_time" [] = none ∧
    ∀ (msgs : List Message) (i : String),
      runToolLoop (fun _ _ => Json.null) msgs [⟨i, "get_time", []⟩] =
        msgs ++ [Message.assistant [⟨i, "get_time", []⟩], Message.tool i "null"] :=
  unknown_tool_name_yields_null _ _ _ (by decide)

/-- C5: a model response with one tool call named get_weather and arguments
latitude 48.85 and longitude 2.35 makes the loop invoke get_weather at
exactly those coordinates and append a tool-role message, carrying that
call's id, whose content is the JSON serialization of get_weather's return
value (the current field of the API response). -/
theorem weather_tool_call_dispatch
    (api : ℚ → ℚ → Json) (msgs : List Message) (i : String) (w : Json)
    (h : Json.getKey (api 48.85 2.35) "current" = some w) :
    get_weather api 48.85 2.35 = some w ∧
    runToolLoop api msgs
        [⟨i, "get_weather", [("latitude", 48.85), ("longitude", 2.35)]⟩] =
      msgs ++
        [Message.assistant
            [⟨i, "get_weather", [("latitude", 48.85), ("longitude", 2.35)]⟩],
          Message.tool i (Json.dumps w)] := by
  constructor
  · simp [get_weather, h]
  · simp [runToolLoop, toolCallStep, call_function, get_weather, h, dumpsOpt]

/-- Witness for C5: a concrete weather API response carrying a current
field. -/
theorem weather_tool_call_dispatch_witness :
    runToolLoop (fun _ _ => Json.obj [("current", Json.str "sunny")])
        [Message.system "You are a helpful weather assitant."]
        [⟨"call_1", "get_weather", [("latitude", 48.85), ("longitude", 2.35)]⟩] =
      [Message.system "You are a helpful weather assitant.",
        Message.assistant
          [⟨"call_1", "get_weather", [("latitude", 48.85), ("longitude", 2.35)]⟩],
        Message.tool "call_1" "\"sunny\""] :=
  (weather_tool_call_dispatch (fun _ _ => Json.obj [("current", Json.str "sunny")])
    _ _ (Json.str "sunny") rfl).2

/-- C6: for every free-text input, route_calendar_request returns a record
whose request_type is one of new_event, modify_event, other, together with a
numeric confidence score and a description string (the record's remaining
fields). -/
theorem route_result_type_exhaustive
    (llm : String → CalendarRequestType) (input : String) :
    ((route_calendar_request llm input).request_type = RequestType.new_event ∨
      (route_calendar_request llm input).request_type = RequestType.modify_event ∨
      (route_calendar_request llm input).request_type = RequestType.other) ∧
    route_calendar_request llm input =
      ⟨(route_calendar_request llm input).request_type,
        (route_calendar_request llm input).confidence_score,
        (route_calendar_request llm input).description⟩ := by
  refine ⟨?_, rfl⟩
  cases h : (route_calendar_request llm input).request_type <;> simp

/-- C7: both handlers build their response purely by string formatting from
the extraction result: success is always true, the calendar link is the
synthetic placeholder string, and the whole response is a total function of
the extracted record (no external call, no error branch). -/
theorem handlers_pure_string_formatting
    (eN : String → NewEventDetails) (eM : String → ModifyEventDetails)
    (dN dM : String) :
    handle_new_event eN dN =
      { success := true
        message := "Created new event \x27" ++ (eN dN).name ++ "\x27 for " ++
          (eN dN).date ++ " with " ++
          String.intercalate ", " (eN dN).participants
        calendar_link := some ("calendar://new?event=" ++ (eN dN).name) } ∧
    handle_modify_event eM dM =
      { success := true
        message := "Modified event \x27" ++ (eM dM).event_identifier ++
          "\x27 with the requested change."
        calendar_link :=
          some ("calendar://modify?event=" ++ (eM dM).event_identifier) } :=
  ⟨rfl, rfl⟩

/-- C8: the basic-completion script writes the API key to stdout before the
model response, so stdout is not independent of the credential: two runs
differing only in the key produce different output. -/
theorem basic_stdout_depends_on_api_key
    (k1 k2 : String) (r : String) (h : k1 ≠ k2) :
    (basic_script_stdout (some k1) r).head? = some k1 ∧
    basic_script_stdout (some k1) r ≠ basic_script_stdout (some k2) r := by
  refine ⟨rfl, fun he => h ?_⟩
  simpa [basic_script_stdout, pyPrintArg] using he

/-- Witness for C8: two concrete distinct keys. -/
theorem basic_stdout_depends_on_api_key_witness :
    (basic_script_stdout (some "sk-live-1") "a limerick").head? =
        some "sk-live-1" ∧
    basic_script_stdout (some "sk-live-1") "a limerick" ≠
      basic_script_stdout (some "sk-test-2") "a limerick" :=
  basic_stdout_depends_on_api_key _ _ _ (by decide)

/-- C9: the loop appends the assistant message once per tool call, so the
final conversation interleaves one copy of the assistant message before each
of the k tool-result messages, and the assistant message occurs exactly k
times in the appended segment rather than once. -/
theorem assistant_message_duplicated_per_tool_call
    (api : ℚ → ℚ → Json) (msgs : List Message) (tcs : List ToolCall) :
    runToolLoop api msgs tcs =
      msgs ++ tcs.flatMap (fun tc =>
        [Message.assistant tcs,
          Message.tool tc.id (dumpsOpt (call_function api tc.name tc.args))]) ∧
    List.count (Message.assistant tcs)
        (tcs.flatMap fun tc =>
          [Message.assistant tcs,
            Message.tool tc.id (dumpsOpt (call_function api tc.name tc.args))]) =
      tcs.length := by
  constructor
  · exact foldl_toolCallStep api (Message.assistant tcs) tcs msgs
  · exact count_flatMap_pair (Message.assistant tcs) _ (fun tc => by simp) tcs

/-- C10: handle_modify_event's response depends only on the extracted
event_identifier: two extraction results agreeing on it yield identical
responses whatever their changes and participant lists. -/
theorem modify_response_depends_only_on_identifier
    (e1 e2 : String → ModifyEventDetails) (d1 d2 : String)
    (h : (e1 d1).event_identifier = (e2 d2).event_identifier) :
    handle_modify_event e1 d1 = handle_modify_event e2 d2 := by
  simp only [handle_modify_event]
  rw [h]

/-- Witness for C10: same identifier, different changes and participant
lists. -/
theorem modify_response_depends_only_on_identifier_witness :
    handle_modify_event
        (fun _ => ⟨"Team Sync", [⟨"date", "2025-01-12T10:00"⟩], ["Carol"], []⟩)
        "move it" =
      handle_modify_event
        (fun _ => ⟨"Team Sync", [], [], ["Alice", "Bob"]⟩) "drop them" :=
  modify_response_depends_only_on_identifier _ _ _ _ rfl

end BasicAgents
